import Mathlib

/-!
# DashProfile: image selection, upload and profile submission

A shallow embedding of the state machine of
`techstack-blog-client/src/components/DashProfile.jsx`.

The component keeps eight `useState` cells; they are the fields of `State`.
The outside world the component talks to (the redux session store, the
requests sent with `axios.post` and `fetch`) is kept next to it in `World`, so
that "no request was issued" and "this signal was dispatched" are statements
about lists.  What the environment answers (the blob URL of a selected file,
the progress events of a transfer, the storage response, the response of the
account-update endpoint) is passed to the handlers as an argument.
-/

namespace DashProfile

/-! ## JavaScript values -/

/-- A plain JavaScript object with string values; keys in insertion order. -/
abbrev JsObject := List (String × String)

/-- Property read `o[k]`; `none` stands for `undefined`. -/
def objGet : JsObject → String → Option String
  | [], _ => none
  | (k', v) :: rest, k => if k' = k then some v else objGet rest k

/-- Property write on a copy, the `k: v` of an object literal after a spread: an
existing key keeps its position and gets the new value, a new key is appended. -/
def objSet : JsObject → String → String → JsObject
  | [], k, v => [(k, v)]
  | (k', v') :: rest, k, v =>
    if k' = k then (k', v) :: rest else (k', v') :: objSet rest k v

/-- The array `Object.keys(o)`. -/
def objectKeys (o : JsObject) : List String := o.map Prod.fst

/-- The numbers `Math.round` can return on a quotient of two byte counts:
`NaN`, `Infinity` or a non-negative integer. -/
inductive JsNumber where
  | nan
  | infinity
  | fin (n : Nat)
  deriving DecidableEq, Repr

/-- A file handed over by the file input (`e.target.files[0]`). -/
structure File where
  name : String
  size : Nat
  deriving DecidableEq, Repr

/-- One value appended to a `FormData` body. -/
inductive FormValue where
  | file (f : File)
  | text (s : String)
  deriving DecidableEq, Repr

/-- A browser `FormData` object: its entries live in an internal slot. -/
structure FormDataBody where
  entries : List (String × FormValue)
  deriving DecidableEq, Repr

/-- The call `formData.append(name, value)`. -/
def FormDataBody.append (fd : FormDataBody) (name : String) (value : FormValue) :
    FormDataBody :=
  { entries := fd.entries ++ [(name, value)] }

/-- The object spread `{ ...fd }` of a `FormData` instance: spread copies own
enumerable properties, and a `FormData` instance has none (its entries are
reachable only through its methods), so nothing is copied. -/
def FormDataBody.spread (_fd : FormDataBody) : JsObject := []

/-! ## Component state and its environment -/

/-- The eight `useState` cells of `DashProfile` (lines 15-22). `none` is `null`. -/
structure State where
  imageFile : Option File
  imageFileUrl : Option String
  imageFileUploadError : Option String
  imageFileUploading : Bool
  imageFileUploadProgress : Option JsNumber
  updateUserSuccess : Option String
  updateUserError : Option String
  formData : JsObject
  deriving DecidableEq, Repr

/-- The state right after mount. -/
def State.initial : State :=
  { imageFile := none, imageFileUrl := none, imageFileUploadError := none,
    imageFileUploading := false, imageFileUploadProgress := none,
    updateUserSuccess := none, updateUserError := none, formData := [] }

/-- The signals of the session store imported from `redux/user/userSlice`. -/
inductive Action where
  | updateStart
  | updateSuccess (user : JsObject)
  | updateFailure (message : Option String)
  deriving DecidableEq, Repr

/-- An `axios.post(url, formData, ...)` call. -/
structure UploadRequest where
  url : String
  body : FormDataBody
  deriving DecidableEq, Repr

/-- A `fetch(url, { method: 'PUT', headers, body })` call; `body` is the object
given to `JSON.stringify`. -/
structure UpdateRequest where
  url : String
  method : String
  contentType : String
  body : JsObject
  deriving DecidableEq, Repr

/-- The two Cloudinary settings read from `import.meta.env` (lines 28-29). -/
structure Env where
  cloudName : String
  uploadPreset : String
  deriving DecidableEq, Repr

/-- The component together with what it can observe and change outside itself. -/
structure World where
  st : State
  currentUser : JsObject
  dispatched : List Action
  posts : List UploadRequest
  fetches : List UpdateRequest
  deriving DecidableEq, Repr

/-- Modelled from the spec: the reducer of `redux/user/userSlice`, which is not
among the sources.  The spec says of it only that the session record is
overwritten with the record carried by `updateSuccess` and is mutated by nothing
else. -/
def userReducer (currentUser : JsObject) : Action → JsObject
  | .updateSuccess user => user
  | .updateStart => currentUser
  | .updateFailure _ => currentUser

/-- The call `dispatch(a)`: the store reduces the signal, and the signal is logged. -/
def dispatch (w : World) (a : Action) : World :=
  { w with currentUser := userReducer w.currentUser a,
           dispatched := w.dispatched ++ [a] }

/-! ## Image intake (lines 32-54) -/

/-- The size limit `2 * 1024 * 1024` of line 36. -/
def maxImageSize : Nat := 2 * 1024 * 1024

/-- The handler `handleImageChange` (lines 32-46).  `file` is `e.target.files[0]`
(`none` when the picker delivered no file) and `objectUrl` is what
`URL.createObjectURL(file)` returns. -/
def handleImageChange (w : World) (file : Option File) (objectUrl : String) : World :=
  match file with
  | none => w
  | some f =>
    if f.size > maxImageSize then
      { w with st := { w.st with imageFileUploadError := some "Image must be less than 2MB",
                                 imageFile := none,
                                 imageFileUrl := none } }
    else
      { w with st := { w.st with imageFileUploadError := none,
                                 imageFile := some f,
                                 imageFileUrl := some objectUrl } }

/-! ## Upload (lines 57-91) -/

/-- A progress event of the transfer; `total` is `undefined` when the length is
not computable. -/
structure ProgressEvent where
  loaded : Nat
  total : Option Nat
  deriving DecidableEq, Repr

/-- The value `Math.round((loaded * 100) / total)` of lines 72-74.  `Math.round`
is rounding half up, `floor (x + 1/2)`.  Division by `undefined` gives `NaN`;
division by zero gives `NaN` for `0 / 0` and `Infinity` otherwise.  Byte counts
are taken in the range where the double quotient rounds like the exact one. -/
def mathRoundPercent (loaded : Nat) (total : Option Nat) : JsNumber :=
  match total with
  | none => .nan
  | some 0 => if loaded = 0 then .nan else .infinity
  | some (t + 1) => .fin ((2 * (loaded * 100) + (t + 1)) / (2 * (t + 1)))

/-- The callback `onUploadProgress` (lines 71-76). -/
def onUploadProgress (w : World) (progressEvent : ProgressEvent) : World :=
  { w with st := { w.st with
      imageFileUploadProgress :=
        some (mathRoundPercent progressEvent.loaded progressEvent.total) } }

/-- What `res.data` is: `undef` for `null` or `undefined` (reading a property of
it throws), otherwise an object whose `secure_url` may be missing. -/
inductive ResponseData where
  | undef
  | obj (secure_url : Option String)
  deriving DecidableEq, Repr

/-- How the awaited `axios.post` ends. -/
inductive AxiosOutcome where
  | rejected
  | resolved (data : ResponseData)
  deriving DecidableEq, Repr

/-- The local `const formData = new FormData()` of lines 63-65, with its two
`append` calls.  A `null` image is appended as the text `null`. -/
def uploadBody (env : Env) (imageFile : Option File) : FormDataBody :=
  let formData : FormDataBody := { entries := [] }
  let formData := formData.append "file"
    (match imageFile with
     | some f => .file f
     | none => .text "null")
  formData.append "upload_preset" (.text env.uploadPreset)

/-- Lines 59-67 of `uploadImage`, up to the `await`: the three state writes and
the request that is sent. -/
def uploadImageBegin (env : Env) (w : World) : World :=
  let st := { w.st with imageFileUploading := true,
                        imageFileUploadError := none,
                        imageFileUploadProgress := some (.fin 0) }
  { w with st := st,
           posts := w.posts ++
             [{ url := "https://api.cloudinary.com/v1_1/" ++ env.cloudName ++ "/image/upload",
                body := uploadBody env w.st.imageFile }] }

/-- The `catch` block of lines 87-90. -/
def uploadImageCatch (w : World) : World :=
  { w with st := { w.st with imageFileUploadError := some "Upload error",
                             imageFileUploading := false } }

/-- Lines 79-90 of `uploadImage`, after the `await`.  `formData` is the local
`FormData` of line 63, which is what the name `formData` denotes in line 81. -/
def uploadImageSettle (formData : FormDataBody) (w : World) (outcome : AxiosOutcome) :
    World :=
  match outcome with
  | .rejected => uploadImageCatch w
  | .resolved .undef => uploadImageCatch w
  | .resolved (.obj secure_url) =>
    match secure_url with
    | some url =>
      if url ≠ "" then
        { w with st := { w.st with imageFileUrl := some url,
                                   formData := objSet formData.spread "profilePicture" url,
                                   imageFileUploading := false } }
      else
        { w with st := { w.st with imageFileUploadError := some "Upload failed",
                                   imageFileUploading := false } }
    | none =>
      { w with st := { w.st with imageFileUploadError := some "Upload failed",
                                 imageFileUploading := false } }

/-- One whole run of `uploadImage` (lines 57-91): the start, the progress events
delivered while the request is awaited, and the end of the request. -/
def uploadImage (env : Env) (w : World) (events : List ProgressEvent)
    (outcome : AxiosOutcome) : World :=
  uploadImageSettle (uploadBody env w.st.imageFile)
    (events.foldl onUploadProgress (uploadImageBegin env w)) outcome

/-- The effect of lines 49-54, run after a render in which `imageFile` changed. -/
def imageFileEffect (env : Env) (w : World) : World :=
  match w.st.imageFile with
  | some _ => uploadImageBegin env w
  | none => w

/-- Whether the dependency `[imageFile]` of the effect changed.  A change event
of a file input delivers a newly created `File` object, so a stored file always
differs from the previous value; `null` differs from a previous file only. -/
def imageFileChanged (before after : Option File) : Bool :=
  match after with
  | some _ => true
  | none => before.isSome

/-- Selecting an image: the change handler, then the effect when `imageFile`
changed. -/
def selectImage (env : Env) (w : World) (file : Option File) (objectUrl : String) :
    World :=
  let w' := handleImageChange w file objectUrl
  if imageFileChanged w.st.imageFile w'.st.imageFile then imageFileEffect env w' else w'

/-! ## Draft and submission (lines 92-129) -/

/-- The handler `handleChange` (lines 92-94), with `id = e.target.id` and
`value = e.target.value`. -/
def handleChange (w : World) (id value : String) : World :=
  { w with st := { w.st with formData := objSet w.st.formData id value } }

/-- How the awaited `fetch` and `res.json()` end: they throw an error with a
message, or deliver a response with its `ok` flag and parsed body. -/
inductive FetchOutcome where
  | rejected (message : String)
  | responded (ok : Bool) (data : JsObject)
  deriving DecidableEq, Repr

/-- The request of lines 109-115. -/
def updateRequest (w : World) : UpdateRequest :=
  { url := "/api/user/update/" ++ (objGet w.currentUser "_id").getD "undefined",
    method := "PUT",
    contentType := "application/json",
    body := w.st.formData }

/-- The handler `handleSubmit` (lines 95-129). -/
def handleSubmit (w₀ : World) (outcome : FetchOutcome) : World :=
  let w := { w₀ with st := { w₀.st with updateUserError := none, updateUserSuccess := none } }
  if (objectKeys w₀.st.formData).length = 0 then
    { w with st := { w.st with updateUserError := some "No changes Made" } }
  else if w₀.st.imageFileUploading then
    { w with st := { w.st with updateUserError := some "Please wait for image upload" } }
  else
    let w := dispatch w .updateStart
    let w := { w with fetches := w.fetches ++ [updateRequest w₀] }
    match outcome with
    | .rejected message =>
      let w := dispatch w (.updateFailure (some message))
      { w with st := { w.st with updateUserError := some message } }
    | .responded ok data =>
      if !ok then
        let w := dispatch w (.updateFailure (objGet data "message"))
        { w with st := { w.st with updateUserError := objGet data "message" } }
      else
        let w := dispatch w (.updateSuccess data)
        { w with st := { w.st with
            updateUserSuccess := some "User's profile updated successfully" } }

/-! ## Sample inputs -/

/-- A settings value used in the examples. -/
def sampleEnv : Env := { cloudName := "demo", uploadPreset := "unsigned" }

/-- A signed-in user with no pending change and no upload. -/
def freshWorld : World :=
  { st := State.initial,
    currentUser := [("_id", "u1"), ("username", "al")],
    dispatched := [], posts := [], fetches := [] }

/-- A user who typed a new username and then selected a 500,000 byte image. -/
def editedWorld : World :=
  { freshWorld with st := { State.initial with
      imageFile := some { name := "x.png", size := 500000 },
      imageFileUrl := some "blob:1",
      formData := [("username", "alice")] } }

/-- A user with a pending username whose upload is still running. -/
def uploadingWorld : World :=
  { editedWorld with st := { editedWorld.st with
      imageFileUploading := true, imageFileUploadProgress := some (.fin 40) } }

/-- A user with an empty draft whose upload is still running. -/
def uploadingEmptyWorld : World :=
  { freshWorld with st := { State.initial with
      imageFile := some { name := "x.png", size := 500000 },
      imageFileUrl := some "blob:1",
      imageFileUploading := true, imageFileUploadProgress := some (.fin 40) } }

/-! ## Spec-side definitions -/

/-- The draft `d` with key `profilePicture` set to `u`, as the specification
describes the result of a successful upload. -/
def specMergedDraft (d : JsObject) (u : String) : JsObject :=
  objSet d "profilePicture" u

/-! ## Lemmas -/

theorem objGet_objSet_same (o : JsObject) (k v : String) :
    objGet (objSet o k v) k = some v := by
  induction o with
  | nil => simp [objSet, objGet]
  | cons p rest ih =>
    obtain ⟨k', v'⟩ := p
    by_cases hk : k' = k
    · simp [objSet, objGet, hk]
    · simp [objSet, objGet, hk, ih]

theorem objGet_objSet_other (o : JsObject) (k v j : String) (hj : j ≠ k) :
    objGet (objSet o k v) j = objGet o j := by
  induction o with
  | nil => simp [objSet, objGet, Ne.symm hj]
  | cons p rest ih =>
    obtain ⟨k', v'⟩ := p
    by_cases hk : k' = k
    · subst hk
      simp [objSet, objGet, Ne.symm hj]
    · by_cases hkj : k' = j
      · subst hkj
        simp [objSet, objGet, hk]
      · simp [objSet, objGet, hk, hkj, ih]

/-- Progress events change the progress cell only. -/
theorem foldl_onUploadProgress_frame (events : List ProgressEvent) (w : World) :
    (events.foldl onUploadProgress w).st.imageFile = w.st.imageFile ∧
    (events.foldl onUploadProgress w).st.imageFileUrl = w.st.imageFileUrl ∧
    (events.foldl onUploadProgress w).st.imageFileUploadError = w.st.imageFileUploadError ∧
    (events.foldl onUploadProgress w).st.imageFileUploading = w.st.imageFileUploading ∧
    (events.foldl onUploadProgress w).st.updateUserSuccess = w.st.updateUserSuccess ∧
    (events.foldl onUploadProgress w).st.updateUserError = w.st.updateUserError ∧
    (events.foldl onUploadProgress w).st.formData = w.st.formData ∧
    (events.foldl onUploadProgress w).currentUser = w.currentUser ∧
    (events.foldl onUploadProgress w).dispatched = w.dispatched ∧
    (events.foldl onUploadProgress w).posts = w.posts ∧
    (events.foldl onUploadProgress w).fetches = w.fetches := by
  induction events generalizing w with
  | nil => simp
  | cons ev rest ih =>
    have h := ih (onUploadProgress w ev)
    simpa [List.foldl, onUploadProgress] using h

/-- On every successful upload the draft written by line 81 holds the key
`profilePicture` alone, whatever the draft was before. -/
theorem uploadImage_success_draft (env : Env) (w : World) (events : List ProgressEvent)
    (u : String) (hu : u ≠ "") :
    (uploadImage env w events (.resolved (.obj (some u)))).st.formData
      = [("profilePicture", u)] := by
  simp [uploadImage, uploadImageSettle, hu, FormDataBody.spread, objSet]

/-- The sibling path `handleChange` merges into the draft: the edited key gets
the new value and every other key keeps its own. -/
theorem handleChange_merges (w : World) (id value j : String) :
    objGet (handleChange w id value).st.formData id = some value ∧
    (j ≠ id → objGet (handleChange w id value).st.formData j = objGet w.st.formData j) :=
  ⟨objGet_objSet_same _ _ _, fun hj => objGet_objSet_other _ _ _ _ hj⟩

/-! ## Submission preconditions -/

/-- C2: with an empty draft, whatever the upload state and whatever the endpoint
would answer, `handleSubmit` ends with the error `No changes Made` and no success
message, sends no request and dispatches nothing to the session store. -/
theorem handleSubmit_empty_draft (w : World) (outcome : FetchOutcome)
    (h : w.st.formData = []) :
    (handleSubmit w outcome).st.updateUserError = some "No changes Made" ∧
    (handleSubmit w outcome).st.updateUserSuccess = none ∧
    (handleSubmit w outcome).fetches = w.fetches ∧
    (handleSubmit w outcome).posts = w.posts ∧
    (handleSubmit w outcome).dispatched = w.dispatched ∧
    (handleSubmit w outcome).currentUser = w.currentUser := by
  simp [handleSubmit, objectKeys, h]

theorem handleSubmit_empty_draft_witness :
    uploadingEmptyWorld.st.formData = [] ∧
    (handleSubmit uploadingEmptyWorld (.responded true [])).st.updateUserError
      = some "No changes Made" ∧
    (handleSubmit uploadingEmptyWorld (.responded true [])).dispatched = [] :=
  ⟨rfl, (handleSubmit_empty_draft uploadingEmptyWorld (.responded true []) rfl).1,
    (handleSubmit_empty_draft uploadingEmptyWorld (.responded true []) rfl).2.2.2.2.1⟩

/-- C3 as stated fails: with an upload in progress and an empty draft, the error
is `No changes Made`, not `Please wait for image upload`. -/
theorem handleSubmit_uploading_empty_draft :
    uploadingEmptyWorld.st.imageFileUploading = true ∧
    (handleSubmit uploadingEmptyWorld (.responded true [])).st.updateUserError
      = some "No changes Made" ∧
    (handleSubmit uploadingEmptyWorld (.responded true [])).st.updateUserError
      ≠ some "Please wait for image upload" := by
  decide

/-- C3 amended: with an upload in progress and a non-empty draft, `handleSubmit`
ends with the error `Please wait for image upload` and no success message, sends
no request and dispatches nothing to the session store. -/
theorem handleSubmit_upload_pending (w : World) (outcome : FetchOutcome)
    (hu : w.st.imageFileUploading = true) (hd : w.st.formData ≠ []) :
    (handleSubmit w outcome).st.updateUserError = some "Please wait for image upload" ∧
    (handleSubmit w outcome).st.updateUserSuccess = none ∧
    (handleSubmit w outcome).fetches = w.fetches ∧
    (handleSubmit w outcome).posts = w.posts ∧
    (handleSubmit w outcome).dispatched = w.dispatched ∧
    (handleSubmit w outcome).currentUser = w.currentUser := by
  simp [handleSubmit, objectKeys, hu, hd]

theorem handleSubmit_upload_pending_witness :
    uploadingWorld.st.imageFileUploading = true ∧
    uploadingWorld.st.formData ≠ [] ∧
    (handleSubmit uploadingWorld (.responded true [])).st.updateUserError
      = some "Please wait for image upload" ∧
    (handleSubmit uploadingWorld (.responded true [])).fetches = [] :=
  ⟨rfl, by decide,
    (handleSubmit_upload_pending uploadingWorld (.responded true []) rfl (by decide)).1,
    (handleSubmit_upload_pending uploadingWorld (.responded true []) rfl (by decide)).2.2.1⟩

/-! ## Image intake -/

/-- C4: for a file larger than 2,097,152 bytes and any prior state, selecting it
sets the upload error to `Image must be less than 2MB`, leaves the selected image
and the preview `null`, keeps the draft and starts no upload. -/
theorem selectImage_oversized (env : Env) (w : World) (f : File) (objectUrl : String)
    (h : f.size > 2097152) :
    (selectImage env w (some f) objectUrl).st.imageFileUploadError
      = some "Image must be less than 2MB" ∧
    (selectImage env w (some f) objectUrl).st.imageFile = none ∧
    (selectImage env w (some f) objectUrl).st.imageFileUrl = none ∧
    (selectImage env w (some f) objectUrl).st.formData = w.st.formData ∧
    (selectImage env w (some f) objectUrl).posts = w.posts ∧
    selectImage env w (some f) objectUrl = handleImageChange w (some f) objectUrl := by
  have hs : f.size > maxImageSize := by simpa [maxImageSize] using h
  simp [selectImage, handleImageChange, hs, imageFileEffect]

theorem selectImage_oversized_witness :
    (File.mk "big.png" 2097153).size > 2097152 ∧
    (selectImage sampleEnv editedWorld (some (File.mk "big.png" 2097153)) "blob:2").st.imageFile
      = none ∧
    (selectImage sampleEnv editedWorld (some (File.mk "big.png" 2097153)) "blob:2").st.imageFileUrl
      = none :=
  ⟨by decide,
    (selectImage_oversized sampleEnv editedWorld (File.mk "big.png" 2097153) "blob:2"
      (by decide)).2.1,
    (selectImage_oversized sampleEnv editedWorld (File.mk "big.png" 2097153) "blob:2"
      (by decide)).2.2.1⟩

/-- C1, evaluated on the code at the failing input: with the pending draft
`username = alice`, a successful upload answering `https://cdn/x.png` leaves a
draft that holds `profilePicture` alone.  The pending `username` is lost, so the
draft is not the previous one with `profilePicture` set. -/
theorem uploadImage_success_loses_pending_keys :
    objGet editedWorld.st.formData "username" = some "alice" ∧
    (uploadImage sampleEnv editedWorld []
        (.resolved (.obj (some "https://cdn/x.png")))).st.formData
      = [("profilePicture", "https://cdn/x.png")] ∧
    objGet (uploadImage sampleEnv editedWorld []
        (.resolved (.obj (some "https://cdn/x.png")))).st.formData "username" = none ∧
    (uploadImage sampleEnv editedWorld []
        (.resolved (.obj (some "https://cdn/x.png")))).st.formData
      ≠ specMergedDraft editedWorld.st.formData "https://cdn/x.png" := by
  decide

/-- C6: when an upload fails, because the request throws, because the response
has no body object, or because its `secure_url` is missing or empty, then
whatever progress events were delivered the upload error is a non-empty message,
the upload is no longer in progress, and the draft is the one from before. -/
theorem uploadImage_failure_keeps_draft (env : Env) (w : World)
    (events : List ProgressEvent) (outcome : AxiosOutcome)
    (h : outcome = .rejected ∨ outcome = .resolved .undef ∨
         outcome = .resolved (.obj none) ∨ outcome = .resolved (.obj (some ""))) :
    (∃ msg, (uploadImage env w events outcome).st.imageFileUploadError = some msg ∧
            msg ≠ "") ∧
    (uploadImage env w events outcome).st.imageFileUploading = false ∧
    (uploadImage env w events outcome).st.formData = w.st.formData := by
  have hf := foldl_onUploadProgress_frame events (uploadImageBegin env w)
  have hd : (events.foldl onUploadProgress (uploadImageBegin env w)).st.formData
      = w.st.formData := by
    rw [hf.2.2.2.2.2.2.1]
    rfl
  rcases h with h | h | h | h <;> subst h
  · exact ⟨⟨"Upload error", rfl, by decide⟩, rfl, hd⟩
  · exact ⟨⟨"Upload error", rfl, by decide⟩, rfl, hd⟩
  · exact ⟨⟨"Upload failed", rfl, by decide⟩, rfl, hd⟩
  · exact ⟨⟨"Upload failed", rfl, by decide⟩, rfl, hd⟩

theorem uploadImage_failure_keeps_draft_witness :
    (uploadImage sampleEnv editedWorld [⟨250000, some 500000⟩]
        (.resolved (.obj none))).st.imageFileUploading = false ∧
    (uploadImage sampleEnv editedWorld [⟨250000, some 500000⟩]
        (.resolved (.obj none))).st.formData = [("username", "alice")] :=
  (uploadImage_failure_keeps_draft sampleEnv editedWorld [⟨250000, some 500000⟩]
    (.resolved (.obj none)) (Or.inr (Or.inr (Or.inl rfl)))).2

end DashProfile
